import Mathlib

/-!
# Verification of the Salesforce MCP server metadata deploy pipeline

Shallow embedding of the core of `app/mcp/tools/dynamic_tools.py`
(package.xml generation, metadata REST deploy submission, deploy status
polling, and the per-metadata-kind facade functions), of
`app/mcp/tools/utils.py` (error-response formatting) and of
`app/utils/retry.py` (the retry-with-backoff decorator).

Modelling conventions:
* Python JSON values are modelled by the inductive `JVal`; Python dicts that
  are built and returned as JSON responses are modelled as association lists
  `List (String × JVal)` so that presence/absence of a key is observable
  (`List.lookup`).
* The remote platform is modelled as an explicit environment: each network
  operation the code performs is a field of an environment structure, and
  every embedded function additionally returns the list of network events
  (`NetEvent`) it emitted, in order.
* A Python function that can raise is modelled with `Except String` (the
  string being `str(e)`); a top-level tool whose body may loop forever
  (the poll loop with `interval_seconds = 0`) returns `PyResult`, whose
  `diverge` constructor models nontermination (the poll loop is given fuel
  `timeout / interval + 2`, which is proven sufficient whenever
  `1 ≤ interval`).
* Numeric API versions (Python floats such as `59.0`) are modelled as opaque
  strings: the code only threads them through into XML/JSON, never computes
  with them.
* Python's unicode-aware `str.isalnum` / `str.isalpha` are modelled with the
  ASCII `Char.isAlphanum` / `Char.isAlpha`; all names in the claims are ASCII.
-/

namespace SFMCP

/-- A JSON value, as manipulated by the Python code (`dict`s are association
lists so that key presence is observable). -/
inductive JVal where
  | null
  | bool (b : Bool)
  | str (s : String)
  | num (n : Int)
  | arr (elems : List JVal)
  | obj (fields : List (String × JVal))
deriving Repr, Inhabited

/-- Python truthiness of a JSON value (`if not data.get("id")`, …). -/
def JVal.truthy : JVal → Bool
  | .null => false
  | .bool b => b
  | .str s => !s.isEmpty
  | .num n => n != 0
  | .arr xs => !xs.isEmpty
  | .obj fs => !fs.isEmpty

/-- Truthiness of `d.get(k)`: a missing key yields `None`, which is falsy. -/
def optTruthy : Option JVal → Bool
  | none => false
  | some v => v.truthy

/-- A network event emitted by an embedded function, in program order. -/
inductive NetEvent where
  | query
  | describe
  | submitDeploy
  | pollStatus
  | flsAttempt
deriving Repr, DecidableEq

/-- `str.isalnum()` over a character list: nonempty, all alphanumeric.
(Python's check is unicode-aware; the ASCII `Char.isAlphanum` is faithful
for the API names in play.) -/
def pyIsAlnumChars (cs : List Char) : Bool :=
  !cs.isEmpty && cs.all Char.isAlphanum

/-- `str.isalnum()`. -/
def pyIsAlnum (s : String) : Bool :=
  pyIsAlnumChars s.data

/-- `s.endswith(t)`, computed on the character lists. -/
def pyEndsWith (s t : String) : Bool :=
  t.data.isSuffixOf s.data

/-!
## Deploy Poller — `_poll_metadata_rest_deploy_status`

The platform's status endpoint is modelled as a function from the index of
the status-check request to the parsed `deployResult` payload: a `done` flag
(truthiness of `result.get("done")`), a `status` string (`result["status"]`)
and a `details` value (`result.get("details")`, `JVal.null` when absent).
-/

/-- One parsed `deployResult` payload returned by the status endpoint. -/
structure PollResp where
  done : Bool
  status : String
  details : JVal
deriving Repr

/-- The dict `{"success": False, "status": "Timeout"}` returned when the
deadline elapses (note: no `details` and no `job_id` key). -/
def timeoutRecord : List (String × JVal) :=
  [("success", .bool false), ("status", .str "Timeout")]

/-- The dict returned on `done`:
`{"success": status in {"Succeeded","SucceededPartial"}, "status": …,
  "details": result.get("details")}`. -/
def doneRecord (resp : PollResp) : List (String × JVal) :=
  [("success", .bool (resp.status == "Succeeded" || resp.status == "SucceededPartial")),
   ("status", .str resp.status),
   ("details", resp.details)]

/-- The poll loop of `_poll_metadata_rest_deploy_status`, with fuel.
`n` is the current iteration index; time only advances through the
`time.sleep(interval_seconds)` at the end of an iteration, so the elapsed
time at iteration `n` is `n * interval`.  Returns the result dict together
with the total number of status-check requests issued; `none` models
nontermination (possible only when the fuel runs out, i.e. `interval = 0`). -/
def pollAux (responses : Nat → PollResp) (timeout interval : Nat) :
    Nat → Nat → Option (List (String × JVal) × Nat)
  | 0, _ => none
  | fuel + 1, n =>
    if n * interval > timeout then
      some (timeoutRecord, n)
    else
      let resp := responses n
      if resp.done then
        some (doneRecord resp, n + 1)
      else
        pollAux responses timeout interval fuel (n + 1)

/-- `_poll_metadata_rest_deploy_status(connection, job_id, timeout, interval)`:
run the loop from iteration 0 with fuel `timeout / interval + 2` (sufficient
whenever `1 ≤ interval`, see `pollAux_isSome`). -/
def poll (responses : Nat → PollResp) (timeout interval : Nat) :
    Option (List (String × JVal) × Nat) :=
  pollAux responses timeout interval (timeout / interval + 2) 0

/-- If the first `N` status responses are not done, the `N`-th (0-based) is
done, and the deadline has not elapsed by iteration `N`, the loop returns the
`doneRecord` of response `N` after exactly `N + 1` requests. -/
theorem pollAux_done (responses : Nat → PollResp) (timeout interval N : Nat)
    (ht : N * interval ≤ timeout)
    (hnd : ∀ m, m < N → (responses m).done = false)
    (hd : (responses N).done = true) :
    ∀ fuel n, n ≤ N → N - n < fuel →
      pollAux responses timeout interval fuel n = some (doneRecord (responses N), N + 1) := by
  intro fuel
  induction fuel with
  | zero => intro n _ h; omega
  | succ fuel ih =>
    intro n hn hfuel
    have hto : ¬ n * interval > timeout := by
      have : n * interval ≤ N * interval := Nat.mul_le_mul_right _ hn
      omega
    by_cases hnN : n = N
    · subst hnN
      simp only [pollAux, if_neg hto, hd, if_true]
    · have hlt : n < N := lt_of_le_of_ne hn hnN
      simp only [pollAux, if_neg hto, hnd n hlt, if_false]
      exact ih (n + 1) (by omega) (by omega)

/-- If no status response is ever done, the loop returns the timeout record
after exactly `timeout / interval + 1` requests. -/
theorem pollAux_timeout (responses : Nat → PollResp) (timeout interval : Nat)
    (hi : 1 ≤ interval)
    (hnd : ∀ m, (responses m).done = false) :
    ∀ fuel n, n ≤ timeout / interval + 1 → timeout / interval + 1 - n < fuel →
      pollAux responses timeout interval fuel n = some (timeoutRecord, timeout / interval + 1) := by
  intro fuel
  induction fuel with
  | zero => intro n _ h; omega
  | succ fuel ih =>
    intro n hn hfuel
    by_cases hend : n = timeout / interval + 1
    · subst hend
      have hto : (timeout / interval + 1) * interval > timeout := by
        have h := (Nat.div_lt_iff_lt_mul (by omega : 0 < interval)).mp
          (Nat.lt_succ_self (timeout / interval))
        rw [Nat.succ_eq_add_one] at h
        exact h
      simp only [pollAux, if_pos hto]
    · have hlt : n ≤ timeout / interval := by omega
      have hto : ¬ n * interval > timeout := by
        have h1 : n * interval ≤ (timeout / interval) * interval :=
          Nat.mul_le_mul_right _ hlt
        have h2 : (timeout / interval) * interval ≤ timeout := Nat.div_mul_le_self _ _
        omega
      simp only [pollAux, if_neg hto, hnd n, if_false]
      exact ih (n + 1) (by omega) (by omega)

/-- Every record the poll loop can return is either the timeout record or
the done record of some platform response. -/
theorem pollAux_shape (responses : Nat → PollResp) (timeout interval : Nat) :
    ∀ fuel n r k, pollAux responses timeout interval fuel n = some (r, k) →
      r = timeoutRecord ∨ ∃ m, (responses m).done = true ∧ r = doneRecord (responses m) := by
  intro fuel
  induction fuel with
  | zero => intro n r k h; simp [pollAux] at h
  | succ fuel ih =>
    intro n r k h
    simp only [pollAux] at h
    by_cases hto : n * interval > timeout
    · rw [if_pos hto] at h
      left
      exact congrArg Prod.fst (Option.some.inj h) |>.symm
    · rw [if_neg hto] at h
      by_cases hd : (responses n).done
      · rw [if_pos hd] at h
        right
        exact ⟨n, hd, (congrArg Prod.fst (Option.some.inj h)).symm⟩
      · rw [if_neg hd] at h
        exact ih (n + 1) r k h

/-- With a positive interval, fuel `timeout / interval + 2` always suffices:
the loop terminates. -/
theorem pollAux_isSome (responses : Nat → PollResp) (timeout interval : Nat)
    (hi : 1 ≤ interval) :
    ∀ fuel n, timeout / interval + 2 ≤ fuel + n → n ≤ timeout / interval + 1 →
      (pollAux responses timeout interval fuel n).isSome := by
  intro fuel
  induction fuel with
  | zero => intro n h1 h2; omega
  | succ fuel ih =>
    intro n h1 h2
    simp only [pollAux]
    by_cases hto : n * interval > timeout
    · rw [if_pos hto]; rfl
    · rw [if_neg hto]
      by_cases hd : (responses n).done
      · rw [if_pos hd]; rfl
      · rw [if_neg hd]
        have hn : n ≤ timeout / interval :=
          (Nat.le_div_iff_mul_le (by omega : 0 < interval)).mpr (by omega)
        exact ih (n + 1) (by omega) (by omega)

/-- `poll` always returns when the interval is positive. -/
theorem poll_isSome (responses : Nat → PollResp) (timeout interval : Nat)
    (hi : 1 ≤ interval) : (poll responses timeout interval).isSome :=
  pollAux_isSome responses timeout interval hi (timeout / interval + 2) 0
    (by generalize timeout / interval = q; omega) (Nat.zero_le _)

/-- **C1** Poller terminal coverage: for a platform status sequence of `N`
not-done responses followed by a done response with terminal status `T`
(one of Succeeded, SucceededPartial, Failed, Aborted), and a deadline that
has not elapsed by iteration `N`, `poll` returns after exactly `N + 1`
status-check requests a record whose `status` is `T` and whose `success`
flag is true exactly when `T` is Succeeded or SucceededPartial (so a
SucceededPartial terminal status yields `success = true`). -/
theorem poller_terminal_coverage
    (responses : Nat → PollResp) (timeout interval N : Nat) (T : String)
    (_hT : T ∈ (["Succeeded", "SucceededPartial", "Failed", "Aborted"] : List String))
    (hi : 1 ≤ interval)
    (hnd : ∀ m, m < N → (responses m).done = false)
    (hd : (responses N).done = true)
    (hstatus : (responses N).status = T)
    (ht : N * interval ≤ timeout) :
    ∃ r, poll responses timeout interval = some (r, N + 1) ∧
      r.lookup "status" = some (.str T) ∧
      ∃ b, r.lookup "success" = some (.bool b) ∧
        (b = true ↔ (T = "Succeeded" ∨ T = "SucceededPartial")) := by
  have hN : N ≤ timeout / interval :=
    (Nat.le_div_iff_mul_le (by omega : 0 < interval)).mpr ht
  have h := pollAux_done responses timeout interval N ht hnd hd
    (timeout / interval + 2) 0 (Nat.zero_le _) (by omega)
  refine ⟨doneRecord (responses N), h, ?_, ?_⟩
  · simp [doneRecord, List.lookup, hstatus]
  · refine ⟨(T == "Succeeded" || T == "SucceededPartial"), ?_, ?_⟩
    · simp [doneRecord, List.lookup, hstatus]
    · simp [Bool.or_eq_true, beq_iff_eq]

/-- Closed witness for `poller_terminal_coverage`: two InProgress responses
followed by a SucceededPartial one, with timeout 300 and interval 5. -/
theorem poller_terminal_coverage_witness :
    ∃ r, poll
        (fun m => if m < 2 then ⟨false, "InProgress", .null⟩
                  else ⟨true, "SucceededPartial", .null⟩) 300 5 = some (r, 3) ∧
      r.lookup "status" = some (.str "SucceededPartial") ∧
      ∃ b, r.lookup "success" = some (.bool b) ∧
        (b = true ↔ ("SucceededPartial" = "Succeeded" ∨
          "SucceededPartial" = "SucceededPartial")) :=
  poller_terminal_coverage _ 300 5 2 "SucceededPartial"
    (by decide) (by decide)
    (fun m hm => by interval_cases m <;> rfl)
    (by decide) (by decide) (by decide)

/-- **C2** Poller timeout: if the platform never reports `done`, `poll`
terminates and returns — as a normal value, not an exception — the record
`{success: false, status: "Timeout"}`, after exactly
`timeout / interval + 1` status-check requests, which is at most
`⌈timeout / interval⌉ + 1`. -/
theorem poller_timeout
    (responses : Nat → PollResp) (timeout interval : Nat)
    (hi : 1 ≤ interval)
    (hnd : ∀ m, (responses m).done = false) :
    ∃ r k, poll responses timeout interval = some (r, k) ∧
      k = timeout / interval + 1 ∧
      k ≤ (timeout + interval - 1) / interval + 1 ∧
      r.lookup "status" = some (.str "Timeout") ∧
      r.lookup "success" = some (.bool false) := by
  have h := pollAux_timeout responses timeout interval hi hnd
    (timeout / interval + 2) 0 (Nat.zero_le _)
    (by generalize timeout / interval = q; omega)
  refine ⟨timeoutRecord, timeout / interval + 1, h, rfl, ?_, by rfl, by rfl⟩
  have : timeout / interval ≤ (timeout + interval - 1) / interval :=
    Nat.div_le_div_right (by omega)
  omega

/-- Closed witness for `poller_timeout`: a never-done sequence with
timeout 7 and interval 3 returns Timeout after `7 / 3 + 1 = 3` requests. -/
theorem poller_timeout_witness :
    ∃ r k, poll (fun _ => ⟨false, "InProgress", .null⟩) 7 3 = some (r, k) ∧
      k = 7 / 3 + 1 ∧
      k ≤ (7 + 3 - 1) / 3 + 1 ∧
      r.lookup "status" = some (.str "Timeout") ∧
      r.lookup "success" = some (.bool false) :=
  poller_timeout (fun _ => ⟨false, "InProgress", .null⟩) 7 3 (by decide)
    (fun _ => rfl)

/-!
## Deploy Submitter — `_execute_metadata_rest_deploy_multipart`
-/

/-- An HTTP response to the deploy submission POST: status code and parsed
JSON body. -/
structure HttpResp where
  statusCode : Nat
  body : List (String × JVal)

/-- The `deployOptions` dict built by
`_execute_metadata_rest_deploy_multipart`. -/
def deployOpts (check_only : Bool) : List (String × JVal) :=
  [("checkOnly", .bool check_only),
   ("testLevel", .str "NoTestRun"),
   ("singlePackage", .bool true),
   ("rollbackOnError", .bool true)]

/-- `_execute_metadata_rest_deploy_multipart(connection, zip, check_only)`:
one multipart POST whose JSON part carries `deployOpts check_only` (the
binary archive part is not observable in any claim and is elided).
`respond` maps the JSON options part to the platform's HTTP response.
`raise_for_status()` raises on a 4xx/5xx status; then
`if not data.get("id"): raise ValueError("Deploy response missing id")`.
Returns the parsed body or the raised exception, together with the number
of POST requests issued. -/
def executeMetadataRestDeployMultipart
    (respond : List (String × JVal) → HttpResp) (check_only : Bool) :
    Except String (List (String × JVal)) × Nat :=
  let resp := respond (deployOpts check_only)
  if 400 ≤ resp.statusCode then
    (.error "HTTPError", 1)
  else if optTruthy (resp.body.lookup "id") = false then
    (.error "Deploy response missing id", 1)
  else
    (.ok resp.body, 1)

/-- **C4** Deploy Submitter: exactly one multipart request is issued — for
every responder and flag, including every failure, the request count is 1
(no internal retry) — the JSON deploy-options part carries `checkOnly` as
passed, `testLevel = "NoTestRun"`, `singlePackage = true` and
`rollbackOnError = true`; and for an HTTP-success response whose body lacks
the `id` field, submission raises the fatal "Deploy response missing id"
error instead of returning a job id. -/
theorem submitter_one_request_options_and_missing_id
    (respond : List (String × JVal) → HttpResp) (check_only : Bool)
    (hok : (respond (deployOpts check_only)).statusCode < 400)
    (hmiss : (respond (deployOpts check_only)).body.lookup "id" = none) :
    (∀ (respond2 : List (String × JVal) → HttpResp) (co2 : Bool),
        (executeMetadataRestDeployMultipart respond2 co2).2 = 1) ∧
    deployOpts check_only =
      [("checkOnly", .bool check_only), ("testLevel", .str "NoTestRun"),
       ("singlePackage", .bool true), ("rollbackOnError", .bool true)] ∧
    (executeMetadataRestDeployMultipart respond check_only).1 =
      .error "Deploy response missing id" := by
  refine ⟨?_, rfl, ?_⟩
  · intro respond2 co2
    unfold executeMetadataRestDeployMultipart
    dsimp only
    split <;> [rfl; split <;> rfl]
  · unfold executeMetadataRestDeployMultipart
    dsimp only
    rw [if_neg (by omega), hmiss]
    rfl

/-- Closed witness for `submitter_one_request_options_and_missing_id`:
an HTTP 200 response with an empty JSON body. -/
theorem submitter_one_request_options_and_missing_id_witness :
    (∀ (respond2 : List (String × JVal) → HttpResp) (co2 : Bool),
        (executeMetadataRestDeployMultipart respond2 co2).2 = 1) ∧
    deployOpts true =
      [("checkOnly", .bool true), ("testLevel", .str "NoTestRun"),
       ("singlePackage", .bool true), ("rollbackOnError", .bool true)] ∧
    (executeMetadataRestDeployMultipart (fun _ => ⟨200, []⟩) true).1 =
      .error "Deploy response missing id" :=
  submitter_one_request_options_and_missing_id (fun _ => ⟨200, []⟩) true
    (by decide) rfl

/-!
## DeployOutcome shape — `_poll_metadata_rest_deploy_status` and
`deploy_apex_class_internal`
-/

/-- The outcome of running an embedded Python function: a normal return,
a raised exception, or divergence (an infinite loop). -/
inductive PyResult (α : Type) where
  | ok (a : α)
  | exn (msg : String)
  | diverge
deriving Repr

/-- Environment for the Apex-class facade tools: the result of the
pre-existence SOQL query (`totalSize` and `records[0].ApiVersion`; the query
may raise), the deploy POST responder, and the status-poll responses. -/
structure ApexEnv where
  classQuery : Except String (Nat × String)
  submitRespond : List (String × JVal) → HttpResp
  pollResponses : Nat → PollResp

/-- `deploy_apex_class_internal(connection, name, files, api_version)`:
package the class (the zip bytes are not observable in any claim and are
elided), submit via `_execute_metadata_rest_deploy_multipart`, poll with the
default `timeout_seconds=300, interval_seconds=5`, then mutate the poll
record with `status["job_id"] = dep["id"]`.  Also returns the network
events emitted. -/
def deployApexClassInternal (env : ApexEnv) :
    PyResult (List (String × JVal)) × List NetEvent :=
  match executeMetadataRestDeployMultipart env.submitRespond false with
  | (.error e, _) => (.exn e, [.submitDeploy])
  | (.ok data, _) =>
    match poll env.pollResponses 300 5 with
    | none => (.diverge, [.submitDeploy])
    | some (st, k) =>
      (.ok (st ++ [("job_id", (data.lookup "id").getD .null)]),
       .submitDeploy :: List.replicate k .pollStatus)

/-- **C3 counterexample**: the record constructed by the Poller is not a
complete four-field DeployOutcome.  On a timed-out job (never done,
`timeout_seconds = 0`, `interval_seconds = 1`) the returned record has
`success` and `status` but neither a `details` nor a `job_id` key; and even
on a done job (`Succeeded` on the first poll) the Poller's record has no
`job_id` key. -/
theorem deploy_outcome_missing_fields_counterexample :
    (∃ r k, poll (fun _ => ⟨false, "InProgress", .null⟩) 0 1 = some (r, k) ∧
      (r.lookup "success").isSome = true ∧ (r.lookup "status").isSome = true ∧
      r.lookup "details" = none ∧ r.lookup "job_id" = none) ∧
    (∃ r k, poll (fun _ => ⟨true, "Succeeded", .null⟩) 300 5 = some (r, k) ∧
      r.lookup "job_id" = none) :=
  ⟨⟨timeoutRecord, 1, rfl, rfl, rfl, rfl, rfl⟩,
   ⟨doneRecord ⟨true, "Succeeded", .null⟩, 1, rfl, rfl⟩⟩

/-- **C3 amended**: the record returned by the Poller always contains
`success` (a boolean) and `status` (a string); it contains `details` on the
done path but not in the synthesized Timeout case; and `job_id` is not added
by the Poller itself but by `deploy_apex_class_internal` afterwards
(`status["job_id"] = dep["id"]`), after which the record carries it. -/
theorem deploy_outcome_fields_amended
    (responses : Nat → PollResp) (timeout interval : Nat)
    (hi : 1 ≤ interval) (jobId : JVal) :
    ∃ r k, poll responses timeout interval = some (r, k) ∧
      (∃ b, r.lookup "success" = some (.bool b)) ∧
      (∃ s, r.lookup "status" = some (.str s)) ∧
      (r ++ [("job_id", jobId)]).lookup "job_id" = some jobId ∧
      (r.lookup "details" = none ∧ r = timeoutRecord ∨
        (r.lookup "details").isSome = true) := by
  obtain ⟨⟨r, k⟩, hrk⟩ :=
    Option.isSome_iff_exists.mp (poll_isSome responses timeout interval hi)
  refine ⟨r, k, hrk, ?_⟩
  rcases pollAux_shape responses timeout interval _ _ r k hrk with h | ⟨m, _, h⟩
  · subst h
    exact ⟨⟨false, rfl⟩, ⟨"Timeout", rfl⟩, rfl, .inl ⟨rfl, rfl⟩⟩
  · subst h
    exact ⟨⟨_, rfl⟩, ⟨_, rfl⟩, rfl, .inr rfl⟩

/-- Closed witness for `deploy_outcome_fields_amended`. -/
theorem deploy_outcome_fields_amended_witness :
    ∃ r k, poll (fun _ => ⟨true, "Failed", .obj []⟩) 300 5 = some (r, k) ∧
      (∃ b, r.lookup "success" = some (.bool b)) ∧
      (∃ s, r.lookup "status" = some (.str s)) ∧
      (r ++ [("job_id", JVal.str "0Af1")]).lookup "job_id" =
        some (JVal.str "0Af1") ∧
      (r.lookup "details" = none ∧ r = timeoutRecord ∨
        (r.lookup "details").isSome = true) :=
  deploy_outcome_fields_amended (fun _ => ⟨true, "Failed", .obj []⟩) 300 5
    (by decide) (.str "0Af1")

/-!
## Package Assembler — `_generate_package_xml`
-/

/-- An XML element as built with lxml `etree`: tag, optional text, children.
(The fixed metadata namespace, the XML declaration and pretty-printing
whitespace are not semantically significant — per the spec — and are
elided.) -/
inductive Xml where
  | elem (tag : String) (text : Option String) (children : List Xml)
deriving Repr

def Xml.tag : Xml → String
  | .elem t _ _ => t

def Xml.text : Xml → Option String
  | .elem _ tx _ => tx

def Xml.children : Xml → List Xml
  | .elem _ _ cs => cs

/-- `_generate_package_xml(members, metadata_type, api_version)`: a
`<Package>` element holding a single `<types>` block with one `<members>`
element per member (in order, duplicates kept) followed by
`<name>metadata_type</name>`, then a `<version>` element.  The function
performs no validation of any kind: it is total in `members` and
`metadata_type`. -/
def generatePackageXml (members : List String) (metadata_type api_version : String) : Xml :=
  .elem "Package" none
    [.elem "types" none
      (members.map (fun m => Xml.elem "members" (some m) []) ++
        [Xml.elem "name" (some metadata_type) []]),
     .elem "version" (some api_version) []]

/-- Observer: the `<types>` blocks of a package. -/
def typesBlocks (p : Xml) : List Xml :=
  p.children.filter (fun c => c.tag == "types")

/-- Observer: the member names listed by an element's `<members>` children. -/
def membersOf (x : Xml) : List String :=
  x.children.filterMap (fun c => if c.tag == "members" then c.text else none)

/-- Observer: the text of an element's `<name>` child. -/
def typeNameOf (x : Xml) : Option String :=
  (x.children.find? (fun c => c.tag == "name")).bind Xml.text

/-- **C5 counterexample**: the Package Assembler does not fail fast on an
empty members list or an unsupported metadata kind — `_generate_package_xml`
is a total function with no error path.  With `members = []` it silently
produces a package whose `<types>` block contains zero `<members>` elements,
and an arbitrary unsupported kind string is emitted verbatim. -/
theorem package_assembler_no_validation_counterexample :
    generatePackageXml [] "ApexClass" "59.0" =
      .elem "Package" none
        [.elem "types" none [.elem "name" (some "ApexClass") []],
         .elem "version" (some "59.0") []] ∧
    generatePackageXml ["Foo"] "NotASupportedKind" "59.0" =
      .elem "Package" none
        [.elem "types" none
          [.elem "members" (some "Foo") [],
           .elem "name" (some "NotASupportedKind") []],
         .elem "version" (some "59.0") []] :=
  ⟨rfl, rfl⟩

/-- `<members>` elements mapped from a member list are exactly recovered
by the `membersOf` filter. -/
theorem filterMap_members_elems (l : List String) (tail : List Xml) :
    List.filterMap (fun c => if c.tag == "members" then c.text else none)
      (l.map (fun m => Xml.elem "members" (some m) []) ++ tail) =
    l ++ List.filterMap (fun c => if c.tag == "members" then c.text else none) tail := by
  induction l with
  | nil => rfl
  | cons m rest ih =>
    rw [List.map_cons, List.cons_append, List.filterMap_cons]
    exact congrArg (List.cons m) ih

/-- `find?` for the `<name>` child skips any prefix of `<members>`
elements. -/
theorem find_name_skips_members (l : List String) (tail : List Xml) :
    List.find? (fun c => c.tag == "name")
      (l.map (fun m => Xml.elem "members" (some m) []) ++ tail) =
    List.find? (fun c => c.tag == "name") tail := by
  induction l with
  | nil => rfl
  | cons m rest ih =>
    rw [List.map_cons, List.cons_append,
      List.find?_cons_of_neg _ (by simp [Xml.tag])]
    exact ih

/-- **C5 amended**: for every members list (including the empty one) and
every metadata-kind string (supported or not), `_generate_package_xml`
returns — without any error — a package with exactly one `<types>` block,
whose `<members>` list is exactly the given members in order and whose
`<name>` is the given kind. -/
theorem package_assembler_amended (members : List String) (mt v : String) :
    ∃ tb, typesBlocks (generatePackageXml members mt v) = [tb] ∧
      membersOf tb = members ∧ typeNameOf tb = some mt := by
  refine ⟨_, rfl, ?_, ?_⟩
  · show (membersOf (.elem "types" none
      (members.map (fun m => Xml.elem "members" (some m) []) ++
        [Xml.elem "name" (some mt) []]))) = members
    unfold membersOf
    rw [Xml.children, filterMap_members_elems,
      show List.filterMap (fun c => if c.tag == "members" then c.text else none)
        [Xml.elem "name" (some mt) []] = [] from rfl,
      List.append_nil]
  · show (typeNameOf (.elem "types" none
      (members.map (fun m => Xml.elem "members" (some m) []) ++
        [Xml.elem "name" (some mt) []]))) = some mt
    unfold typeNameOf
    rw [Xml.children, find_name_skips_members]
    rfl

/-!
## Retry decorator — `app/utils/retry.py`
-/

/-- Final outcome of the wrapper produced by the `retry` decorator:
a returned value, a re-raised exception, or the trailing `return None`
(reachable only with `max_attempts = 0`). -/
inductive RetryOutcome (E α : Type) where
  | ok (a : α)
  | raised (e : E)
  | fellThrough
deriving Repr

/-- Trace of one run of the retry wrapper: its outcome, the number of
invocations of the wrapped function, and the waits performed before each
re-invocation, in order.  Waits are modelled in ℚ (the code computes
`backoff ** attempt` in floating point; the claim concerns the exponent
schedule, not rounding). -/
structure RetryTrace (E α : Type) where
  outcome : RetryOutcome E α
  calls : Nat
  waits : List ℚ

/-- The `while attempt < max_attempts` loop of `retry(...)`'s `wrapper`.
`f i` is the behaviour of the `i`-th invocation (0-based) of the wrapped
function: a return value, or an exception from the retried set. -/
def retryGo {E α : Type} (f : Nat → Except E α) (maxAttempts : Nat)
    (backoff : ℚ) (attempt : Nat) : RetryTrace E α :=
  if _h : attempt < maxAttempts then
    match f attempt with
    | .ok a => ⟨.ok a, 1, []⟩
    | .error e =>
      if attempt + 1 ≥ maxAttempts then
        ⟨.raised e, 1, []⟩
      else
        let rest := retryGo f maxAttempts backoff (attempt + 1)
        ⟨rest.outcome, rest.calls + 1, backoff ^ (attempt + 1) :: rest.waits⟩
  else
    ⟨.fellThrough, 0, []⟩
termination_by maxAttempts - attempt
decreasing_by omega

/-- One call of the wrapper: run the loop from `attempt = 0`. -/
def retryRun {E α : Type} (f : Nat → Except E α) (maxAttempts : Nat)
    (backoff : ℚ) : RetryTrace E α :=
  retryGo f maxAttempts backoff 0

/-- The loop invokes the wrapped function at most `maxAttempts - attempt`
more times. -/
theorem retryGo_calls_le {E α : Type} (f : Nat → Except E α)
    (maxAttempts : Nat) (backoff : ℚ) :
    ∀ attempt, (retryGo f maxAttempts backoff attempt).calls ≤ maxAttempts - attempt := by
  suffices H : ∀ d attempt, maxAttempts - attempt = d →
      (retryGo f maxAttempts backoff attempt).calls ≤ maxAttempts - attempt by
    intro attempt
    exact H (maxAttempts - attempt) attempt rfl
  intro d
  induction d with
  | zero =>
    intro a hda
    rw [retryGo, dif_neg (by omega)]
    simp
  | succ d ih =>
    intro a hda
    rw [retryGo, dif_pos (by omega)]
    cases hfa : f a with
    | ok x =>
      show (⟨.ok x, 1, []⟩ : RetryTrace E α).calls ≤ maxAttempts - a
      simp only [RetryTrace.calls]
      omega
    | error e =>
      by_cases h2 : a + 1 ≥ maxAttempts
      · show (if a + 1 ≥ maxAttempts then (⟨.raised e, 1, []⟩ : RetryTrace E α)
          else
            let rest := retryGo f maxAttempts backoff (a + 1)
            ⟨rest.outcome, rest.calls + 1, backoff ^ (a + 1) :: rest.waits⟩).calls ≤
          maxAttempts - a
        rw [if_pos h2]
        simp only [RetryTrace.calls]
        omega
      · show (if a + 1 ≥ maxAttempts then (⟨.raised e, 1, []⟩ : RetryTrace E α)
          else
            let rest := retryGo f maxAttempts backoff (a + 1)
            ⟨rest.outcome, rest.calls + 1, backoff ^ (a + 1) :: rest.waits⟩).calls ≤
          maxAttempts - a
        rw [if_neg h2]
        have := ih (a + 1) (by omega)
        simp only [RetryTrace.calls]
        omega

/-- If every invocation up to `maxAttempts` raises, the loop starting at
`attempt = a < maxAttempts` makes exactly `maxAttempts - a` further calls,
re-raises the exception of the last one, and waits
`backoff ^ (a+1), …, backoff ^ (maxAttempts-1)` between calls. -/
theorem retryGo_allFail {E α : Type} (f : Nat → Except E α)
    (maxAttempts : Nat) (backoff : ℚ) (es : Nat → E)
    (hf : ∀ i, i < maxAttempts → f i = .error (es i)) :
    ∀ a, a < maxAttempts →
      retryGo f maxAttempts backoff a =
        ⟨.raised (es (maxAttempts - 1)), maxAttempts - a,
         (List.range' (a + 1) (maxAttempts - 1 - a)).map (fun n => backoff ^ n)⟩ := by
  suffices H : ∀ d a, maxAttempts - a = d → a < maxAttempts →
      retryGo f maxAttempts backoff a =
        ⟨.raised (es (maxAttempts - 1)), maxAttempts - a,
         (List.range' (a + 1) (maxAttempts - 1 - a)).map (fun n => backoff ^ n)⟩ by
    intro a ha
    exact H (maxAttempts - a) a rfl ha
  intro d
  induction d with
  | zero => intro a hda ha; omega
  | succ d ih =>
    intro a hda ha
    rw [retryGo, dif_pos ha, hf a ha]
    show (if a + 1 ≥ maxAttempts then (⟨.raised (es a), 1, []⟩ : RetryTrace E α)
        else
          let rest := retryGo f maxAttempts backoff (a + 1)
          ⟨rest.outcome, rest.calls + 1, backoff ^ (a + 1) :: rest.waits⟩) =
      ⟨.raised (es (maxAttempts - 1)), maxAttempts - a,
       (List.range' (a + 1) (maxAttempts - 1 - a)).map (fun n => backoff ^ n)⟩
    by_cases h2 : a + 1 ≥ maxAttempts
    · rw [if_pos h2]
      have e2 : maxAttempts - a = 1 := by omega
      have e1 : maxAttempts - 1 = a := by omega
      rw [e2, e1, Nat.sub_self]
      rfl
    · rw [if_neg h2]
      rw [ih (a + 1) (by omega) (by omega)]
      have e1 : maxAttempts - a = (maxAttempts - (a + 1)) + 1 := by omega
      have e2 : maxAttempts - 1 - a = (maxAttempts - 1 - (a + 1)) + 1 := by omega
      rw [e1, e2, List.range'_succ]
      rfl

/-- **C10** The retry decorator invokes the wrapped function at most
`max_attempts` times (for every behaviour, including early success); when
every invocation raises a retried exception, the wrapper re-raises the
final exception — it does not return `None` — after exactly `max_attempts`
invocations, having waited `backoff ^ n` seconds before the `n`-th
re-invocation for `n = 1, …, max_attempts - 1`. -/
theorem retry_decorator {E α : Type} (f : Nat → Except E α)
    (maxAttempts : Nat) (backoff : ℚ) (es : Nat → E)
    (h1 : 1 ≤ maxAttempts)
    (hf : ∀ i, i < maxAttempts → f i = .error (es i)) :
    (∀ (g : Nat → Except E α), (retryRun g maxAttempts backoff).calls ≤ maxAttempts) ∧
    (retryRun f maxAttempts backoff).outcome = .raised (es (maxAttempts - 1)) ∧
    (retryRun f maxAttempts backoff).calls = maxAttempts ∧
    (retryRun f maxAttempts backoff).waits =
      (List.range' 1 (maxAttempts - 1)).map (fun n => backoff ^ n) := by
  have h := retryGo_allFail f maxAttempts backoff es hf 0 (by omega)
  refine ⟨?_, ?_, ?_, ?_⟩
  · intro g
    have := retryGo_calls_le g maxAttempts backoff 0
    unfold retryRun
    omega
  · rw [retryRun, h]
  · rw [retryRun, h]
    rfl
  · rw [retryRun, h]
    rfl

/-- Closed witness for `retry_decorator`: three attempts, backoff 2, every
invocation raising; the wrapper re-raises the last exception after 3 calls
with waits `[2, 4]`. -/
theorem retry_decorator_witness :
    (∀ (g : Nat → Except Nat Unit), (retryRun g 3 2).calls ≤ 3) ∧
    (retryRun (fun i => (Except.error i : Except Nat Unit)) 3 (2 : ℚ)).outcome =
      .raised 2 ∧
    (retryRun (fun i => (Except.error i : Except Nat Unit)) 3 (2 : ℚ)).calls = 3 ∧
    (retryRun (fun i => (Except.error i : Except Nat Unit)) 3 (2 : ℚ)).waits =
      (List.range' 1 2).map (fun n => (2 : ℚ) ^ n) :=
  retry_decorator (fun i => (Except.error i : Except Nat Unit)) 3 2
    (fun i => i) (by omega) (fun i _ => rfl)

/-!
## Metadata Operation Facade — Apex class, Apex trigger and Flow tools
-/

/-- Helper: `(executeMetadataRestDeployMultipart …).2 = 1` — the submitter
always issues exactly one POST. -/
theorem executeMetadata_snd (respond : List (String × JVal) → HttpResp)
    (co : Bool) : (executeMetadataRestDeployMultipart respond co).2 = 1 := by
  unfold executeMetadataRestDeployMultipart
  dsimp only
  split
  · rfl
  · split <;> rfl

/-- Helper: package the submitter's result as a pair. -/
theorem executeMetadata_pair (respond : List (String × JVal) → HttpResp)
    (co : Bool) (x : Except String (List (String × JVal)))
    (hx : (executeMetadataRestDeployMultipart respond co).1 = x) :
    executeMetadataRestDeployMultipart respond co = (x, 1) := by
  rw [← hx, ← executeMetadata_snd respond co]

/-- The local name rule of `create_apex_class` / `create_apex_trigger`:
`name.replace("_", "").isalnum()` (replacing each underscore by the empty
string is exactly filtering the underscores out). -/
def validApexName (name : String) : Bool :=
  pyIsAlnumChars (name.data.filter (fun c => c ≠ '_'))

/-- `create_apex_class(class_name, body, api_version)` — the `body` goes
only into the zip payload and is not otherwise observable, so it is not a
parameter of the model.  The entire body is wrapped in
`try/except Exception`, whose handler returns
`{"success": False, "error": str(e)}`; consequently the result is never a
raised exception.  Note the order in the source: the pre-existence SOQL
query runs before the local name validation. -/
def create_apex_class (env : ApexEnv) (class_name : String)
    (api_version : Option String) :
    PyResult (List (String × JVal)) × List NetEvent :=
  match env.classQuery with
  | .error e => (.ok [("success", .bool false), ("error", .str e)], [.query])
  | .ok (totalSize, _) =>
    if totalSize > 0 then
      (.ok [("success", .bool false),
            ("error", .str ("Apex class '" ++ class_name ++
              "' already exists. Use upsert_apex_class to update it."))],
       [.query])
    else if validApexName class_name = false then
      (.ok [("success", .bool false),
            ("error", .str "Invalid class name. Use only alphanumeric characters and underscores.")],
       [.query])
    else
      let av := api_version.getD "59.0"
      match deployApexClassInternal env with
      | (.exn e, ev) =>
        (.ok [("success", .bool false), ("error", .str e)], .query :: ev)
      | (.diverge, ev) => (.diverge, .query :: ev)
      | (.ok res, ev) =>
        let sv := (res.lookup "success").getD (.bool false)
        (.ok [("success", sv),
              ("operation", .str "create_apex_class"),
              ("class_name", .str class_name),
              ("api_version", .str av),
              ("message", .str (if sv.truthy then
                  "Successfully created Apex class '" ++ class_name ++ "'"
                else "Failed to create Apex class '" ++ class_name ++ "'")),
              ("job_id", (res.lookup "job_id").getD .null),
              ("errors", if sv.truthy then .null
                else (res.lookup "details").getD .null)],
         .query :: ev)

/-- `upsert_apex_class(class_name, body, api_version)`: fails with NotFound
when the pre-existence query returns zero records; otherwise deploys,
defaulting `api_version` to the existing record's `ApiVersion`. -/
def upsert_apex_class (env : ApexEnv) (class_name : String)
    (api_version : Option String) :
    PyResult (List (String × JVal)) × List NetEvent :=
  match env.classQuery with
  | .error e => (.ok [("success", .bool false), ("error", .str e)], [.query])
  | .ok (totalSize, recordApiVersion) =>
    if totalSize == 0 then
      (.ok [("success", .bool false),
            ("error", .str (class_name ++
              " not found (use create_apex_class to create new classes)"))],
       [.query])
    else
      let av := api_version.getD recordApiVersion
      match deployApexClassInternal env with
      | (.exn e, ev) =>
        (.ok [("success", .bool false), ("error", .str e)], .query :: ev)
      | (.diverge, ev) => (.diverge, .query :: ev)
      | (.ok res, ev) =>
        let sv := (res.lookup "success").getD (.bool false)
        (.ok [("success", sv),
              ("operation", .str "update_apex_class"),
              ("class_name", .str class_name),
              ("api_version", .str av),
              ("message", .str (if sv.truthy then
                  "Successfully updated Apex class '" ++ class_name ++ "'"
                else "Failed to update Apex class '" ++ class_name ++ "'")),
              ("job_id", (res.lookup "job_id").getD .null),
              ("errors", if sv.truthy then .null
                else (res.lookup "details").getD .null)],
         .query :: ev)

/-- Environment for `create_apex_trigger`: the pre-existence query's
`totalSize` (the query may raise), whether `getattr(sf, table).describe()`
succeeds, the deploy POST responder and the status-poll responses. -/
structure TriggerEnv where
  triggerQuery : Except String Nat
  describeOk : Bool
  submitRespond : List (String × JVal) → HttpResp
  pollResponses : Nat → PollResp

/-- `deploy_apex_trigger_internal`: identical control flow to
`deploy_apex_class_internal` (only the zip payload differs, which is not
observable). -/
def deployApexTriggerInternal (env : TriggerEnv) :
    PyResult (List (String × JVal)) × List NetEvent :=
  match executeMetadataRestDeployMultipart env.submitRespond false with
  | (.error e, _) => (.exn e, [.submitDeploy])
  | (.ok data, _) =>
    match poll env.pollResponses 300 5 with
    | none => (.diverge, [.submitDeploy])
    | some (st, k) =>
      (.ok (st ++ [("job_id", (data.lookup "id").getD .null)]),
       .submitDeploy :: List.replicate k .pollStatus)

/-- `create_apex_trigger(trigger_name, body, table_name, api_version)`.
Source order: (1) pre-existence SOQL query (a network call), (2) local name
validation, (3) `describe()` on the target object, (4) deploy. -/
def create_apex_trigger (env : TriggerEnv) (trigger_name table_name : String)
    (api_version : Option String) :
    PyResult (List (String × JVal)) × List NetEvent :=
  match env.triggerQuery with
  | .error e => (.ok [("success", .bool false), ("error", .str e)], [.query])
  | .ok totalSize =>
    if totalSize > 0 then
      (.ok [("success", .bool false),
            ("error", .str ("Apex trigger '" ++ trigger_name ++
              "' already exists. Use upsert_apex_trigger to update it."))],
       [.query])
    else if validApexName trigger_name = false then
      (.ok [("success", .bool false),
            ("error", .str "Invalid trigger name. Use only alphanumeric characters and underscores.")],
       [.query])
    else if env.describeOk = false then
      (.ok [("success", .bool false),
            ("error", .str ("Target object '" ++ table_name ++ "' not found"))],
       [.query, .describe])
    else
      let av := api_version.getD "59.0"
      match deployApexTriggerInternal env with
      | (.exn e, ev) =>
        (.ok [("success", .bool false), ("error", .str e)], .query :: .describe :: ev)
      | (.diverge, ev) => (.diverge, .query :: .describe :: ev)
      | (.ok res, ev) =>
        let sv := (res.lookup "success").getD (.bool false)
        (.ok [("success", sv),
              ("operation", .str "create_apex_trigger"),
              ("trigger_name", .str trigger_name),
              ("table_name", .str table_name),
              ("api_version", .str av),
              ("message", .str (if sv.truthy then
                  "Successfully created Apex trigger '" ++ trigger_name ++ "'"
                else "Failed to create Apex trigger '" ++ trigger_name ++ "'")),
              ("job_id", (res.lookup "job_id").getD .null),
              ("errors", if sv.truthy then .null
                else (res.lookup "details").getD .null)],
         .query :: .describe :: ev)

/-- Environment for `create_flow`: just the deploy responder and the poll
responses — the source performs no pre-existence query of any kind. -/
structure FlowEnv where
  submitRespond : List (String × JVal) → HttpResp
  pollResponses : Nat → PollResp

/-- `create_flow(flow_name, label, …)`: generates Flow XML, packages it and
immediately submits a deploy; it never queries whether a flow of that name
already exists.  Returns `json.dumps(status)` where `status` is the poll
record plus `job_id`. -/
def create_flow (env : FlowEnv) :
    PyResult (List (String × JVal)) × List NetEvent :=
  match executeMetadataRestDeployMultipart env.submitRespond false with
  | (.error e, _) =>
    (.ok [("success", .bool false), ("error", .str e)], [.submitDeploy])
  | (.ok data, _) =>
    match poll env.pollResponses 300 5 with
    | none => (.diverge, [.submitDeploy])
    | some (st, k) =>
      (.ok (st ++ [("job_id", (data.lookup "id").getD .null)]),
       .submitDeploy :: List.replicate k .pollStatus)

/-- A submit responder that accepts the deploy and returns job id `0Af1`. -/
def happySubmit : List (String × JVal) → HttpResp :=
  fun _ => ⟨200, [("id", JVal.str "0Af1")]⟩

/-- Status responses: done at once, `Succeeded`. -/
def pollSucceeded : Nat → PollResp :=
  fun _ => ⟨true, "Succeeded", .null⟩

/-- Status responses: done at once, `Failed`. -/
def pollFailed : Nat → PollResp :=
  fun _ => ⟨true, "Failed", .null⟩

/-- Helper: `deploy_apex_class_internal` when the submission raises. -/
theorem deployApexClassInternal_exn (env : ApexEnv) (e : String)
    (hsub : (executeMetadataRestDeployMultipart env.submitRespond false).1 = .error e) :
    deployApexClassInternal env = (.exn e, [.submitDeploy]) := by
  unfold deployApexClassInternal
  rw [executeMetadata_pair env.submitRespond false _ hsub]

/-- Helper: `deploy_apex_class_internal` when submission succeeds and the
poll loop returns. -/
theorem deployApexClassInternal_ok (env : ApexEnv) (d : List (String × JVal))
    (st : List (String × JVal)) (k : Nat)
    (hsub : (executeMetadataRestDeployMultipart env.submitRespond false).1 = .ok d)
    (hpoll : poll env.pollResponses 300 5 = some (st, k)) :
    deployApexClassInternal env =
      (.ok (st ++ [("job_id", (d.lookup "id").getD .null)]),
       .submitDeploy :: List.replicate k .pollStatus) := by
  unfold deployApexClassInternal
  simp only [executeMetadata_pair env.submitRespond false _ hsub, hpoll]

/-- **C6 counterexample**: not every metadata kind guards creation with a
pre-existence check.  `create_flow` performs no query at all — its behaviour
does not depend on whether a flow of that name exists — and it always
submits a deploy job: here it emits exactly one submit event and one poll
event, no query event, and returns the deploy outcome rather than an
AlreadyExists failure.  So for the Flow kind, `create_X` on an existing
name submits a deploy job instead of returning `AlreadyExists`. -/
theorem create_flow_no_existence_check_counterexample :
    (create_flow ⟨happySubmit, pollSucceeded⟩).2 =
      [NetEvent.submitDeploy, NetEvent.pollStatus] ∧
    NetEvent.query ∉ (create_flow ⟨happySubmit, pollSucceeded⟩).2 ∧
    NetEvent.submitDeploy ∈ (create_flow ⟨happySubmit, pollSucceeded⟩).2 ∧
    (create_flow ⟨happySubmit, pollSucceeded⟩).1 =
      .ok [("success", .bool true), ("status", .str "Succeeded"),
           ("details", .null), ("job_id", .str "0Af1")] :=
  ⟨rfl, by decide, by decide, rfl⟩

/-- **C6 amended**: for the Apex-class facade pair cited by the claim the
guarantee holds — `create_apex_class` on a name whose pre-existence query
returns ≥ 1 records returns the AlreadyExists failure and emits no submit
event; `upsert_apex_class` on a name whose query returns zero records
returns the NotFound failure and emits no submit event; and
`upsert_apex_class` with no caller-supplied version reuses the existing
record's `ApiVersion` in the deploy and the response.  (Not every metadata
kind has these guards: see the `create_flow` counterexample.) -/
theorem apex_create_update_mutual_exclusion
    (env1 env2 env3 : ApexEnv) (name1 name2 name3 : String)
    (v1 v2 : Option String)
    (ts1 ts3 : Nat) (av1 av2 av3 : String) (d3 : List (String × JVal))
    (h1 : env1.classQuery = .ok (ts1, av1)) (hts1 : 0 < ts1)
    (h2 : env2.classQuery = .ok (0, av2))
    (h3 : env3.classQuery = .ok (ts3, av3)) (hts3 : 0 < ts3)
    (hsub3 : (executeMetadataRestDeployMultipart env3.submitRespond false).1 = .ok d3) :
    (create_apex_class env1 name1 v1 =
      (.ok [("success", .bool false),
            ("error", .str ("Apex class '" ++ name1 ++
              "' already exists. Use upsert_apex_class to update it."))],
       [.query]) ∧
     NetEvent.submitDeploy ∉ (create_apex_class env1 name1 v1).2) ∧
    (upsert_apex_class env2 name2 v2 =
      (.ok [("success", .bool false),
            ("error", .str (name2 ++
              " not found (use create_apex_class to create new classes)"))],
       [.query]) ∧
     NetEvent.submitDeploy ∉ (upsert_apex_class env2 name2 v2).2) ∧
    (∃ r ev, upsert_apex_class env3 name3 none = (.ok r, ev) ∧
      r.lookup "api_version" = some (.str av3)) := by
  have hc1 : create_apex_class env1 name1 v1 =
      (.ok [("success", .bool false),
            ("error", .str ("Apex class '" ++ name1 ++
              "' already exists. Use upsert_apex_class to update it."))],
       [.query]) := by
    unfold create_apex_class
    rw [h1]
    simp only [if_pos hts1]
  have hc2 : upsert_apex_class env2 name2 v2 =
      (.ok [("success", .bool false),
            ("error", .str (name2 ++
              " not found (use create_apex_class to create new classes)"))],
       [.query]) := by
    unfold upsert_apex_class
    rw [h2]
    rfl
  refine ⟨⟨hc1, ?_⟩, ⟨hc2, ?_⟩, ?_⟩
  · rw [hc1]
    show NetEvent.submitDeploy ∉ [NetEvent.query]
    decide
  · rw [hc2]
    show NetEvent.submitDeploy ∉ [NetEvent.query]
    decide
  · obtain ⟨⟨st, k⟩, hpoll⟩ := Option.isSome_iff_exists.mp
      (poll_isSome env3.pollResponses 300 5 (by decide))
    have hne : (ts3 == 0) = false := beq_eq_false_iff_ne.mpr (by omega)
    unfold upsert_apex_class
    rw [h3]
    dsimp only
    rw [hne]
    simp only [Bool.false_eq_true, if_false,
      deployApexClassInternal_ok env3 d3 st k hsub3 hpoll]
    exact ⟨_, _, rfl, rfl⟩

/-- Closed witness for `apex_create_update_mutual_exclusion`. -/
theorem apex_create_update_mutual_exclusion_witness :
    (create_apex_class ⟨.ok (1, "59.0"), happySubmit, pollSucceeded⟩ "Ping" none =
      (.ok [("success", .bool false),
            ("error", .str ("Apex class '" ++ "Ping" ++
              "' already exists. Use upsert_apex_class to update it."))],
       [.query]) ∧
     NetEvent.submitDeploy ∉
       (create_apex_class ⟨.ok (1, "59.0"), happySubmit, pollSucceeded⟩ "Ping" none).2) ∧
    (upsert_apex_class ⟨.ok (0, "59.0"), happySubmit, pollSucceeded⟩ "Pong" none =
      (.ok [("success", .bool false),
            ("error", .str ("Pong" ++
              " not found (use create_apex_class to create new classes)"))],
       [.query]) ∧
     NetEvent.submitDeploy ∉
       (upsert_apex_class ⟨.ok (0, "59.0"), happySubmit, pollSucceeded⟩ "Pong" none).2) ∧
    (∃ r ev, upsert_apex_class ⟨.ok (1, "58.0"), happySubmit, pollSucceeded⟩ "Ping" none =
        (.ok r, ev) ∧
      r.lookup "api_version" = some (.str "58.0")) :=
  apex_create_update_mutual_exclusion
    ⟨.ok (1, "59.0"), happySubmit, pollSucceeded⟩
    ⟨.ok (0, "59.0"), happySubmit, pollSucceeded⟩
    ⟨.ok (1, "58.0"), happySubmit, pollSucceeded⟩
    "Ping" "Pong" "Ping" none none 1 1 "59.0" "59.0" "58.0"
    [("id", JVal.str "0Af1")]
    rfl (by decide) rfl rfl (by decide) rfl

/-- **C7 counterexample**: `create_apex_trigger("1Bad!", body, "Account")`
does return the InvalidName failure, but only after the pre-existence SOQL
query — a network call — has already been issued: the emitted network-event
list is `[query]`, not `[]`. -/
theorem trigger_invalid_name_network_call_counterexample :
    (create_apex_trigger ⟨.ok 0, true, happySubmit, pollSucceeded⟩
        "1Bad!" "Account" none).2 = [NetEvent.query] ∧
    (create_apex_trigger ⟨.ok 0, true, happySubmit, pollSucceeded⟩
        "1Bad!" "Account" none).2 ≠ [] ∧
    (create_apex_trigger ⟨.ok 0, true, happySubmit, pollSucceeded⟩
        "1Bad!" "Account" none).1 =
      .ok [("success", .bool false),
           ("error", .str "Invalid trigger name. Use only alphanumeric characters and underscores.")] :=
  ⟨rfl, by decide, rfl⟩

/-- **C7 amended**: for every syntactically invalid trigger name (one
rejected by `name.replace("_","").isalnum()`), when the pre-existence query
returns zero records `create_apex_trigger` returns `success = false` with
the InvalidName error and submits no deploy job and performs no describe
call — but the pre-existence SOQL query itself is one network call issued
before the local name validation, so the call is not network-free. -/
theorem trigger_invalid_name_amended
    (env : TriggerEnv) (name table : String) (av : Option String)
    (hq : env.triggerQuery = .ok 0)
    (hbad : validApexName name = false) :
    create_apex_trigger env name table av =
      (.ok [("success", .bool false),
            ("error", .str "Invalid trigger name. Use only alphanumeric characters and underscores.")],
       [.query]) ∧
    NetEvent.submitDeploy ∉ (create_apex_trigger env name table av).2 ∧
    NetEvent.describe ∉ (create_apex_trigger env name table av).2 := by
  have hc : create_apex_trigger env name table av =
      (.ok [("success", .bool false),
            ("error", .str "Invalid trigger name. Use only alphanumeric characters and underscores.")],
       [.query]) := by
    unfold create_apex_trigger
    rw [hq, hbad]
    rfl
  refine ⟨hc, ?_, ?_⟩
  · rw [hc]
    show NetEvent.submitDeploy ∉ [NetEvent.query]
    decide
  · rw [hc]
    show NetEvent.describe ∉ [NetEvent.query]
    decide

/-- Closed witness for `trigger_invalid_name_amended`, at the claim's own
input `create_apex_trigger("1Bad!", body, "Account")`. -/
theorem trigger_invalid_name_amended_witness :
    create_apex_trigger ⟨.ok 0, true, happySubmit, pollFailed⟩
        "1Bad!" "Account" none =
      (.ok [("success", .bool false),
            ("error", .str "Invalid trigger name. Use only alphanumeric characters and underscores.")],
       [.query]) ∧
    NetEvent.submitDeploy ∉
      (create_apex_trigger ⟨.ok 0, true, happySubmit, pollFailed⟩
        "1Bad!" "Account" none).2 ∧
    NetEvent.describe ∉
      (create_apex_trigger ⟨.ok 0, true, happySubmit, pollFailed⟩
        "1Bad!" "Account" none).2 :=
  trigger_invalid_name_amended ⟨.ok 0, true, happySubmit, pollFailed⟩
    "1Bad!" "Account" none rfl (by decide)

/-- **C8 counterexample**: a failing tool call without an `error: string`
field.  When the deploy submission succeeds but the job terminates
`Failed`, `create_apex_class` returns a response with `success = false`
whose diagnostics live in `message`/`errors` — it has no `error` key at
all. -/
theorem facade_failure_without_error_key_counterexample :
    ∃ r ev, create_apex_class ⟨.ok (0, "59.0"), happySubmit, pollFailed⟩
        "Foo" none = (.ok r, ev) ∧
      r.lookup "success" = some (.bool false) ∧
      r.lookup "error" = none ∧
      (r.lookup "message").isSome = true ∧
      (r.lookup "errors").isSome = true :=
  ⟨_, _, rfl, rfl, rfl, rfl, rfl⟩

/-- **C8 amended**: `create_apex_class` — a representative of the tools
whose whole body is wrapped in `try/except Exception` — never lets an
exception propagate and never diverges: for every environment behaviour it
returns a normal response object containing a boolean `success` field; on
the exception path the handler produces exactly
`{"success": false, "error": str(e)}`.  (On deploy-failure paths the
diagnostics are carried by `message`/`errors` instead of `error`, as the
counterexample shows; and not every tool is fully wrapped —
`fetch_object_metadata` shapes its response outside its `try`.) -/
theorem facade_wellformed_amended
    (env env2 : ApexEnv) (name name2 : String) (av av2 : Option String)
    (msg : String) (h2 : env2.classQuery = .error msg) :
    (∃ r ev b, create_apex_class env name av = (.ok r, ev) ∧
      r.lookup "success" = some (.bool b)) ∧
    create_apex_class env2 name2 av2 =
      (.ok [("success", .bool false), ("error", .str msg)], [.query]) := by
  constructor
  · unfold create_apex_class
    match hq : env.classQuery with
    | .error e => exact ⟨_, _, _, rfl, rfl⟩
    | .ok (ts, v) =>
      dsimp only
      by_cases hts : ts > 0
      · rw [if_pos hts]
        exact ⟨_, _, _, rfl, rfl⟩
      · rw [if_neg hts]
        by_cases hvn : validApexName name = false
        · rw [hvn]
          exact ⟨_, _, _, rfl, rfl⟩
        · have hvt : validApexName name = true := by
            revert hvn
            cases validApexName name <;> simp
          rw [hvt]
          match hsub : (executeMetadataRestDeployMultipart env.submitRespond false).1 with
          | .error e =>
            rw [deployApexClassInternal_exn env e hsub]
            exact ⟨_, _, _, rfl, rfl⟩
          | .ok d =>
            obtain ⟨⟨st, k⟩, hpoll⟩ := Option.isSome_iff_exists.mp
              (poll_isSome env.pollResponses 300 5 (by decide))
            rw [deployApexClassInternal_ok env d st k hsub hpoll]
            rcases pollAux_shape env.pollResponses 300 5 _ _ st k hpoll with hsh | ⟨m, _, hsh⟩
            · rw [hsh]
              exact ⟨_, _, _, rfl, rfl⟩
            · rw [hsh]
              exact ⟨_, _, _, rfl, rfl⟩
  · unfold create_apex_class
    rw [h2]

/-- Closed witness for `facade_wellformed_amended`. -/
theorem facade_wellformed_amended_witness :
    (∃ r ev b, create_apex_class ⟨.ok (0, "59.0"), happySubmit, pollSucceeded⟩
        "Ping" none = (.ok r, ev) ∧
      r.lookup "success" = some (.bool b)) ∧
    create_apex_class ⟨.error "INVALID_SESSION_ID", happySubmit, pollSucceeded⟩
        "Ping" none =
      (.ok [("success", .bool false), ("error", .str "INVALID_SESSION_ID")],
       [.query]) :=
  facade_wellformed_amended ⟨.ok (0, "59.0"), happySubmit, pollSucceeded⟩
    ⟨.error "INVALID_SESSION_ID", happySubmit, pollSucceeded⟩
    "Ping" "Ping" none none "INVALID_SESSION_ID" rfl

/-!
## Custom-field facade — `upsert_custom_field`
-/

/-- The standard objects accepted as-is by `_normalize_object_name` and the
object-name validation. -/
def stdObjects : List String :=
  ["Account", "Contact", "Lead", "Opportunity", "Case"]

/-- `_normalize_object_name`. -/
def normalizeObjectName (o : String) : String :=
  if stdObjects.contains o then o
  else if pyEndsWith o "__c" then o else o ++ "__c"

/-- `_valid_custom_name`: must end in `__c`; the core before the suffix is
nonempty, starts with a letter, and with underscores removed is
alphanumeric. -/
def validCustomName (n : String) : Bool :=
  if pyEndsWith n "__c" = false then false
  else
    let core := n.data.take (n.data.length - 3)
    !core.isEmpty && (core.headD 'A').isAlpha &&
      pyIsAlnumChars (core.filter (fun c => c ≠ '_'))

/-- Environment for `upsert_custom_field`: the describe call (raising, or
returning the object's field names), the deploy responder, the status-poll
responses, and the field-level-security grant block.  The FLS block
(find/create the "System Admin" permission set, assign it to the current
user, grant read/edit on the field — source lines wrapped in a single
`try`) is abstracted as one fallible step, since the claim concerns only
the `try/except` around it: on error it carries `str(fls_err)` and the
partial `fls_result`, on success the final `fls_result`. -/
structure FieldEnv where
  describeFields : Except String (List String)
  submitRespond : List (String × JVal) → HttpResp
  pollResponses : Nat → PollResp
  flsGrant : Except (String × JVal) JVal

/-- `upsert_custom_field(object_name, field_api_name, label, field_type, …)`
(the `label`, `type_params`, `required` and `description` arguments only
shape the generated XML payload, which is not observable in any claim, and
are elided).  Validation and normalization follow the source; after the
deploy poll, a failed deploy short-circuits before the FLS step, and an
FLS error is caught and reported alongside `success = true`. -/
def upsert_custom_field (env : FieldEnv)
    (object_name field_api_name field_type : String) :
    PyResult (List (String × JVal)) × List NetEvent :=
  let objectName := normalizeObjectName object_name
  let fieldName := if pyEndsWith field_api_name "__c" then field_api_name
    else field_api_name ++ "__c"
  if validCustomName fieldName = false then
    (.ok [("success", .bool false),
          ("error", .str "Invalid field API name (must end with __c, start with a letter, contain only letters/numbers/underscores).")],
     [])
  else if (stdObjects.contains objectName || validCustomName objectName) = false then
    (.ok [("success", .bool false), ("error", .str "Invalid object API name.")], [])
  else
    match env.describeFields with
    | .error _ =>
      (.ok [("success", .bool false),
            ("error", .str ("Object not found: " ++ objectName))],
       [.describe])
    | .ok fieldNames =>
      let isUpdate := fieldNames.contains fieldName
      let op := if isUpdate then "update_custom_field" else "create_custom_field"
      match executeMetadataRestDeployMultipart env.submitRespond false with
      | (.error e, _) =>
        (.ok [("success", .bool false), ("error", .str e)],
         [.describe, .submitDeploy])
      | (.ok data, _) =>
        let jobId := (data.lookup "id").getD .null
        match poll env.pollResponses 300 5 with
        | none => (.diverge, [.describe, .submitDeploy])
        | some (st, k) =>
          let ev := .describe :: .submitDeploy :: List.replicate k .pollStatus
          if optTruthy (st.lookup "success") = false then
            (.ok [("success", .bool false), ("operation", .str op),
                  ("object_name", .str objectName), ("field_name", .str fieldName),
                  ("field_type", .str field_type), ("job_id", jobId),
                  ("message", .str "Field deployment failed"),
                  ("errors", (st.lookup "details").getD .null)],
             ev)
          else
            match env.flsGrant with
            | .error (msg, pfls) =>
              (.ok [("success", .bool true), ("operation", .str op),
                    ("object_name", .str objectName), ("field_name", .str fieldName),
                    ("field_type", .str field_type), ("job_id", jobId),
                    ("message", .str ("Field deployed, but FLS grant step encountered an error: " ++ msg)),
                    ("errors", .null), ("fls_grant", pfls)],
               ev ++ [.flsAttempt])
            | .ok fls =>
              (.ok [("success", .bool true), ("operation", .str op),
                    ("object_name", .str objectName), ("field_name", .str fieldName),
                    ("field_type", .str field_type), ("job_id", jobId),
                    ("message", .str ("Successfully " ++
                      (if isUpdate then "updated" else "created") ++ " field " ++
                      fieldName ++ " on " ++ objectName ++
                      " and granted read/edit via 'System Admin' Permission Set")),
                    ("errors", .null), ("fls_grant", fls)],
               ev ++ [.flsAttempt])

/-- **C9** FLS grant is best-effort: after a successful custom-field deploy,
an error raised during the field-level-visibility grant step is surfaced
alongside `success = true` (with the error text in `message`) and never
turns the result into a failure; and when the deploy itself fails, the
grant step is not attempted at all (no FLS event is emitted) and the result
is a failure. -/
theorem fls_grant_best_effort
    (env : FieldEnv) (object_name field_api_name field_type : String)
    (fieldNames : List String) (d : List (String × JVal))
    (st : List (String × JVal)) (k : Nat) (msg : String) (pfls : JVal)
    (hfn : validCustomName (if pyEndsWith field_api_name "__c" then
      field_api_name else field_api_name ++ "__c") = true)
    (hon : (stdObjects.contains (normalizeObjectName object_name) ||
      validCustomName (normalizeObjectName object_name)) = true)
    (hdesc : env.describeFields = .ok fieldNames)
    (hsub : (executeMetadataRestDeployMultipart env.submitRespond false).1 = .ok d)
    (hpoll : poll env.pollResponses 300 5 = some (st, k)) :
    (optTruthy (st.lookup "success") = true →
      env.flsGrant = .error (msg, pfls) →
      ∃ r ev, upsert_custom_field env object_name field_api_name field_type =
          (.ok r, ev) ∧
        r.lookup "success" = some (.bool true) ∧
        NetEvent.flsAttempt ∈ ev ∧
        r.lookup "message" =
          some (.str ("Field deployed, but FLS grant step encountered an error: " ++ msg))) ∧
    (optTruthy (st.lookup "success") = false →
      ∃ r ev, upsert_custom_field env object_name field_api_name field_type =
          (.ok r, ev) ∧
        r.lookup "success" = some (.bool false) ∧
        NetEvent.flsAttempt ∉ ev) := by
  constructor
  · intro hsucc hfls
    unfold upsert_custom_field
    dsimp only
    rw [hfn, hon, hdesc]
    dsimp only
    rw [executeMetadata_pair env.submitRespond false _ hsub]
    dsimp only
    rw [hpoll]
    dsimp only
    rw [hsucc, hfls]
    refine ⟨_, _, rfl, rfl, ?_, rfl⟩
    simp
  · intro hsucc
    unfold upsert_custom_field
    dsimp only
    rw [hfn, hon, hdesc]
    dsimp only
    rw [executeMetadata_pair env.submitRespond false _ hsub]
    dsimp only
    rw [hpoll]
    dsimp only
    rw [hsucc]
    refine ⟨_, _, rfl, rfl, ?_⟩
    simp [List.mem_replicate]

/-- Closed witness for `fls_grant_best_effort`: a successful deploy of
`Invoice__c.Customer_Code__c` whose FLS grant step raises. -/
theorem fls_grant_best_effort_witness :
    (optTruthy ((doneRecord ⟨true, "Succeeded", .null⟩).lookup "success") = true →
      (FieldEnv.mk (.ok ["Name"]) happySubmit pollSucceeded
          (.error ("INSUFFICIENT_ACCESS", .obj []))).flsGrant =
        .error ("INSUFFICIENT_ACCESS", .obj []) →
      ∃ r ev, upsert_custom_field
          ⟨.ok ["Name"], happySubmit, pollSucceeded,
           .error ("INSUFFICIENT_ACCESS", .obj [])⟩
          "Invoice__c" "Customer_Code__c" "Text" = (.ok r, ev) ∧
        r.lookup "success" = some (.bool true) ∧
        NetEvent.flsAttempt ∈ ev ∧
        r.lookup "message" =
          some (.str ("Field deployed, but FLS grant step encountered an error: " ++ "INSUFFICIENT_ACCESS"))) ∧
    (optTruthy ((doneRecord ⟨true, "Succeeded", .null⟩).lookup "success") = false →
      ∃ r ev, upsert_custom_field
          ⟨.ok ["Name"], happySubmit, pollSucceeded,
           .error ("INSUFFICIENT_ACCESS", .obj [])⟩
          "Invoice__c" "Customer_Code__c" "Text" = (.ok r, ev) ∧
        r.lookup "success" = some (.bool false) ∧
        NetEvent.flsAttempt ∉ ev) :=
  fls_grant_best_effort
    ⟨.ok ["Name"], happySubmit, pollSucceeded,
     .error ("INSUFFICIENT_ACCESS", .obj [])⟩
    "Invoice__c" "Customer_Code__c" "Text" ["Name"]
    [("id", JVal.str "0Af1")] (doneRecord ⟨true, "Succeeded", .null⟩) 1
    "INSUFFICIENT_ACCESS" (.obj [])
    (by decide) (by decide) rfl rfl rfl

end SFMCP
